import Mathlib

/-
Verification of the lsp_agent repository against its specification.

The shared document data model is embedded from
src/agent/shared_document/src/lib.rs (the `document` module of the agent
crate).  Each Rust `with_doc_mut` block is one transaction and is embedded
as one Lean state-transition function on `LspAgent`; `hydrate`/`reconcile`
round-tripping is the identity on values (asserted by the crate's own
serialization tests), so a transaction is modelled as a pure record update.
Rust `HashMap<String, V>` is modelled as an association list with
overwrite-on-insert semantics; `Vec` as `List` with push at the tail.
-/

/-- One document body, from struct DocumentContent in shared_document. -/
structure DocumentContent where
  text : String
deriving DecidableEq, Repr

/-- Enum AgentRequest from shared_document: a mini-app inference request. -/
inductive AgentRequest where
  | inference (content : String) (app_id : String)
deriving DecidableEq, Repr

/-- Enum AgentResponse from shared_document. -/
inductive AgentResponse where
  | chat (content : String)
  | inference (app_id : String) (content : String)
  | webApp (id : String) (content : String)
deriving DecidableEq, Repr

/-- Enum ConversationFragment from shared_document. -/
inductive ConversationFragment where
  | assistant (content : String)
  | user (content : String)
deriving DecidableEq, Repr

/-- Struct Uri from shared_document. -/
structure Uri where
  value : String
deriving DecidableEq, Repr

/-- Struct StoredValue from shared_document. -/
structure StoredValue where
  value : String
  description : String
deriving DecidableEq, Repr

/-- Lookup in the association-list model of Rust HashMap. -/
def smapGet {α : Type} (m : List (String × α)) (k : String) : Option α :=
  match m with
  | [] => none
  | (k2, v) :: rest => if k2 = k then some v else smapGet rest k

/-- Insert-or-overwrite in the association-list model of Rust HashMap. -/
def smapInsert {α : Type} (m : List (String × α)) (k : String) (v : α) :
    List (String × α) :=
  match m with
  | [] => [(k, v)]
  | (k2, v2) :: rest =>
      if k2 = k then (k, v) :: rest else (k2, v2) :: smapInsert rest k v

/-- Key removal in the association-list model of Rust HashMap. -/
def smapRemove {α : Type} (m : List (String × α)) (k : String) :
    List (String × α) :=
  match m with
  | [] => []
  | (k2, v2) :: rest =>
      if k2 = k then rest else (k2, v2) :: smapRemove rest k

/-- Struct DocumentManager from shared_document. -/
structure DocumentManager where
  documents : List (String × DocumentContent)
  active_document : Option Uri
deriving DecidableEq, Repr

/-- Struct LspAgent from shared_document: the whole replicated document. -/
structure LspAgent where
  requests : List AgentRequest
  responses : List AgentResponse
  text_documents : DocumentManager
  webviews : DocumentManager
  should_exit : Bool
  active_model : Option String
  conversation_history : List ConversationFragment
  stored_values : List (String × StoredValue)
deriving DecidableEq, Repr

/-- LspAgent::default: every field empty, false or none. -/
def LspAgent.default : LspAgent :=
  ⟨[], [], ⟨[], none⟩, ⟨[], none⟩, false, none, [], []⟩

/-- DocWebSink::launch_app (src/agent/src/lib.rs, lines 121-136): inside one
transaction, insert the webviews entry for the app id and push the matching
WebApp response. -/
def launchApp (agent : LspAgent) (id content : String) : LspAgent :=
  { agent with
      webviews :=
        { agent.webviews with
            documents := smapInsert agent.webviews.documents id ⟨content⟩ },
      responses := agent.responses ++ [AgentResponse.webApp id content] }

/-- DocWebSink::handle_inference_response: push an Inference response. -/
def handleInferenceResponse (agent : LspAgent) (app_id content : String) :
    LspAgent :=
  { agent with
      responses := agent.responses ++ [AgentResponse.inference app_id content] }

/-- Document part of AutomergeAgent::shutdown: set should_exit. -/
def setShouldExit (agent : LspAgent) : LspAgent :=
  { agent with should_exit := true }

/-- AutomergeAgent::did_open: insert the uri into text_documents. -/
def didOpen (agent : LspAgent) (uri text : String) : LspAgent :=
  { agent with
      text_documents :=
        { agent.text_documents with
            documents := smapInsert agent.text_documents.documents uri ⟨text⟩ } }

/-- AutomergeAgent::did_change: overwrite the uri in text_documents. -/
def didChange (agent : LspAgent) (uri text : String) : LspAgent :=
  { agent with
      text_documents :=
        { agent.text_documents with
            documents := smapInsert agent.text_documents.documents uri ⟨text⟩ } }

/-- AutomergeAgent::did_close: remove the uri from text_documents. -/
def didClose (agent : LspAgent) (uri : String) : LspAgent :=
  { agent with
      text_documents :=
        { agent.text_documents with
            documents := smapRemove agent.text_documents.documents uri } }

/-- AutomergeAgent::set_active_document. -/
def setActiveDocument (agent : LspAgent) (uri : String) : LspAgent :=
  { agent with
      text_documents :=
        { agent.text_documents with active_document := some ⟨uri⟩ } }

/-- DocWebAgent::app_inference_request: push an Inference request. -/
def appInferenceRequest (agent : LspAgent) (content app_id : String) :
    LspAgent :=
  { agent with
      requests := agent.requests ++ [AgentRequest.inference content app_id] }

/-- DocWebAgent::read_document (src/agent/src/lib.rs, lines 242-252): look up
the uri in text_documents only, defaulting to the empty string. -/
def readDocument (agent : LspAgent) (uri : String) : String :=
  ((smapGet agent.text_documents.documents uri).map (fun d => d.text)).getD ""

/-- DocWebAgent::close_app: remove from webviews and append a history note. -/
def closeApp (agent : LspAgent) (app_id : String) : LspAgent :=
  { agent with
      webviews :=
        { agent.webviews with
            documents := smapRemove agent.webviews.documents app_id },
      conversation_history :=
        agent.conversation_history ++
          [ConversationFragment.assistant ("App closed: " ++ app_id)] }

/-- DocWebAgent::store_value: insert into stored_values. -/
def storeValue (agent : LspAgent) (key value description : String) : LspAgent :=
  { agent with
      stored_values := smapInsert agent.stored_values key ⟨value, description⟩ }

/-- DocWebAgent::read_value: look up a stored value. -/
def readValue (agent : LspAgent) (key : String) : Option String :=
  (smapGet agent.stored_values key).map (fun v => v.value)

/-- take_response (src/agent/src/lib.rs, lines 363-380): remove the response
head when present; a transaction is committed only in that case. -/
def takeResponse (agent : LspAgent) : Option AgentResponse × LspAgent :=
  match agent.responses with
  | [] => (none, agent)
  | r :: rest => (some r, { agent with responses := rest })

/-- check_agent_state (src/agent/src/lib.rs, lines 518-535): remove the
request head when present (committing only in that case) and report
should_exit, the removed request, and active_model. -/
def checkAgentState (agent : LspAgent) :
    (Bool × Option AgentRequest × Option String) × LspAgent :=
  match agent.requests with
  | [] => ((agent.should_exit, none, agent.active_model), agent)
  | r :: rest =>
      ((agent.should_exit, some r, agent.active_model),
       { agent with requests := rest })

/-- handle_web_doc_change (src/agent/src/lib.rs, lines 338-361): on a change
notification the rendering-side router first reads should_exit and whether
the response head is a non-Chat response; on should_exit it returns true
(tear down) without popping; otherwise it pops via take_response and
dispatches.  Returns (tear down, new state, dispatched response). -/
def handleWebDocChange (agent : LspAgent) :
    Bool × LspAgent × Option AgentResponse :=
  let should_handle :=
    match agent.responses.head? with
    | some (AgentResponse.chat _) => false
    | some _ => true
    | none => false
  if agent.should_exit then (true, agent, none)
  else if should_handle then
    let popped := takeResponse agent
    (false, popped.2, popped.1)
  else (false, agent, none)

/-- The control-process watch loop (src/agent/src/lib.rs, lines 486-512): on
each change notification (each preceded by the external edits that triggered
it, folded into one edit function) it runs check_agent_state; if should_exit
was observed it performs shutdown and breaks, otherwise it handles the popped
request and waits again.  Returns the requests dequeued over the run, the
final document state, and whether the loop shut down. -/
def controlRun : List (LspAgent → LspAgent) → LspAgent →
    List AgentRequest × LspAgent × Bool
  | [], s => ([], s, false)
  | e :: rest, s =>
      let s1 := e s
      let out := checkAgentState s1
      if out.1.1 = true then (out.1.2.1.toList, out.2, true)
      else
        let tail := controlRun rest out.2
        (out.1.2.1.toList ++ tail.1, tail.2.1, tail.2.2)

/-
Tool-use orchestrator, embedded from handle_chat_request and
parse_tool_response (src/agent/src/lib.rs, lines 604-806).

The inference engine and serde_json are external collaborators.  The engine
is modelled as an oracle giving the reply string of each loop iteration
(call_inference already turns transport errors into strings, so the loop
always receives a string); the serde_json parse of a reply is modelled as an
oracle from reply strings to an optional structured ToolResponse.  The
prompt built by prompts::build_web_request feeds only the engine, so it is
absorbed into the engine oracle.
-/

/-- Struct ToolResponse from src/agent/src/lib.rs, lines 37-42. -/
structure ToolResponse where
  action : String
  message : Option String
  app : Option String
deriving DecidableEq, Repr

/-- parse_tool_response (src/agent/src/lib.rs, lines 792-806): on serde
failure the raw text becomes a terminal answer; on success an answer with no
message gets the raw text as its message. -/
def parseToolResponse (parsed : Option ToolResponse) (response : String) :
    ToolResponse :=
  match parsed with
  | some p =>
      if p.action = "answer" ∧ p.message = none then
        { p with message := some response }
      else p
  | none => ⟨"answer", some response, none⟩

/-- Struct prompts::DocsInfo. -/
structure DocsInfo where
  open_documents : List String
  active_document : Option String
deriving DecidableEq, Repr

/-- Struct prompts::StoredValueInfo, as used at the call sites in
handle_chat_request. -/
structure StoredValueInfo where
  key : String
  description : String
deriving DecidableEq, Repr

/-- collect_apps (src/agent/src/lib.rs, lines 808-814): the webview contents. -/
def collectApps (manager : DocumentManager) : List String :=
  manager.documents.map (fun p => p.2.text)

/-- Insertion into a sorted string list, for the sort in collect_docs. -/
def insertSortedString (x : String) : List String → List String
  | [] => [x]
  | y :: ys => if x ≤ y then x :: y :: ys else y :: insertSortedString x ys

/-- String sort used by collect_docs. -/
def sortStrings : List String → List String
  | [] => []
  | x :: xs => insertSortedString x (sortStrings xs)

/-- collect_docs (src/agent/src/lib.rs, lines 816-832): sorted keys of
text_documents, with the active document appended when absent. -/
def collectDocs (manager : DocumentManager) : DocsInfo :=
  let open_documents := sortStrings (manager.documents.map (fun p => p.1))
  let active_document := manager.active_document.map (fun u => u.value)
  let open_documents :=
    match active_document with
    | some active =>
        if open_documents.contains active then open_documents
        else open_documents ++ [active]
    | none => open_documents
  ⟨open_documents, active_document⟩

/-- collect_stored_values (src/agent/src/lib.rs, lines 834-844): keys and
descriptions only, never values. -/
def collectStoredValues (values : List (String × StoredValue)) :
    List StoredValueInfo :=
  values.map (fun p => ⟨p.1, p.2.description⟩)

/-- Context captured once at the start of a chat turn. -/
structure TurnContext where
  running_apps : List String
  docs_info : DocsInfo
  stored_values_info : List StoredValueInfo
deriving DecidableEq, Repr

/-- Mutable locals of the tool-use loop in handle_chat_request. -/
structure ChatLoopState where
  history : List ConversationFragment
  apps_payload : Option (List String)
  docs_payload : Option DocsInfo
  stored_values_payload : Option (List StoredValueInfo)
  response_message : Option String
  launched_app : Option String
  did_nothing : Bool
  current_prompt_user : String
  pushed_user_message : Bool
deriving DecidableEq, Repr

def appsRepeatMessage : String :=
  "App list was already provided, but the assistant requested it again without concluding."

def docsRepeatMessage : String :=
  "Document list was already provided, but the assistant requested it again without concluding."

def storedValuesRepeatMessage : String :=
  "Stored values list was already provided, but the assistant requested it again without concluding."

def fallbackMessage : String :=
  "No actionable response was produced. Please retry or rephrase."

def appsMarker : String := "Assistant requested info on running apps."

def docsMarker : String := "Assistant requested info on open documents."

def storedValuesMarker : String := "Assistant requested info on stored values."

/-- Default for the iteration budget (DEFAULT_TOOL_MAX_ITERATIONS). -/
def defaultToolMaxIterations : Nat := 3

/-- The history bookkeeping run when a context block is supplied
(src/agent/src/lib.rs, lines 709-717): push the user fragment once, on the
first context fetch with non-empty text, then push the assistant marker. -/
def pushContextHistory (st : ChatLoopState) (reason : String) : ChatLoopState :=
  let st1 :=
    if st.pushed_user_message = false ∧ st.current_prompt_user ≠ "" then
      { st with
          history :=
            st.history ++ [ConversationFragment.user st.current_prompt_user],
          current_prompt_user := "",
          pushed_user_message := true }
    else st
  { st1 with history := st1.history ++ [ConversationFragment.assistant reason] }

/-- Outcome of one loop iteration: halt breaks out of the for loop, next
falls through to the following iteration. -/
inductive StepResult where
  | halt (st : ChatLoopState)
  | next (st : ChatLoopState)
deriving DecidableEq, Repr

/-- One iteration of the tool-use loop body (src/agent/src/lib.rs, lines
643-718), dispatching on the parsed action.  The final catch-all arm records
the raw reply text as the pending answer but does not break. -/
def chatStep (ctx : TurnContext) (parsed : ToolResponse) (raw : String)
    (st : ChatLoopState) : StepResult :=
  if parsed.action = "answer" then
    .halt { st with response_message := parsed.message }
  else if parsed.action = "nothing" then
    .halt { st with did_nothing := true }
  else if parsed.action = "launch_app" then
    .halt { st with launched_app := parsed.app }
  else if parsed.action = "list_apps" then
    match st.apps_payload with
    | some _ => .halt { st with response_message := some appsRepeatMessage }
    | none =>
        .next (pushContextHistory
          { st with apps_payload := some ctx.running_apps } appsMarker)
  else if parsed.action = "list_docs" then
    match st.docs_payload with
    | some _ => .halt { st with response_message := some docsRepeatMessage }
    | none =>
        .next (pushContextHistory
          { st with docs_payload := some ctx.docs_info } docsMarker)
  else if parsed.action = "list_app_values" then
    match st.stored_values_payload with
    | some _ =>
        .halt { st with response_message := some storedValuesRepeatMessage }
    | none =>
        .next (pushContextHistory
          { st with stored_values_payload := some ctx.stored_values_info }
          storedValuesMarker)
  else
    .next { st with response_message := some raw }

/-- The bounded for loop of handle_chat_request: fuel is the remaining
iterations, i the index of the next engine call. -/
def chatLoop (ctx : TurnContext) (parse : String → Option ToolResponse)
    (engine : Nat → String) : Nat → Nat → ChatLoopState → ChatLoopState
  | 0, _, st => st
  | fuel + 1, i, st =>
      let raw := engine i
      let parsed := parseToolResponse (parse raw) raw
      match chatStep ctx parsed raw st with
      | .halt st2 => st2
      | .next st2 => chatLoop ctx parse engine fuel (i + 1) st2

/-- Loop-local state at the start of a turn. -/
def initialChatState (history : List ConversationFragment)
    (latest_user : String) : ChatLoopState :=
  ⟨history, none, none, none, none, none, false, latest_user, false⟩

/-- The fallback after the loop (src/agent/src/lib.rs, lines 720-725). -/
def finishTurn (st : ChatLoopState) : ChatLoopState :=
  if st.did_nothing = false ∧ st.launched_app = none ∧
      st.response_message = none then
    { st with response_message := some fallbackMessage }
  else st

/-- The commit transaction of handle_chat_request (src/agent/src/lib.rs,
lines 731-765): record the model hint, extend the transcript with the
fragments accumulated past the initial length, add the user fragment when it
was not pushed during the loop, and add the final assistant message. -/
def commitTurn (agent : LspAgent) (latest_user : String)
    (model_hint : Option String) (initial_history_len : Nat)
    (st : ChatLoopState) : LspAgent :=
  let agent1 :=
    match model_hint with
    | some m => { agent with active_model := some m }
    | none => agent
  let new_fragments := st.history.drop initial_history_len
  let h1 := agent1.conversation_history ++ new_fragments
  let h2 :=
    if st.pushed_user_message = false ∧ latest_user ≠ "" ∧
        (st.launched_app.isSome ∨ st.response_message.isSome) then
      h1 ++ [ConversationFragment.user latest_user]
    else h1
  let h3 :=
    match st.response_message with
    | some m => h2 ++ [ConversationFragment.assistant m]
    | none => h2
  { agent1 with conversation_history := h3 }

/-- The turn context captured by handle_chat_request at turn start. -/
def turnContext (agent : LspAgent) : TurnContext :=
  ⟨collectApps agent.webviews, collectDocs agent.text_documents,
   collectStoredValues agent.stored_values⟩

/-- handle_chat_request end to end: returns the committed document, the
value sent on the oneshot responder (Some message or None, exactly
response_message), and the launched app content if any.  max_iterations is
the budget after the environment override. -/
def handleChatRequest (agent : LspAgent) (latest_user : String)
    (model_hint : Option String) (max_iterations : Nat)
    (parse : String → Option ToolResponse) (engine : Nat → String) :
    LspAgent × Option String × Option String :=
  let st0 := initialChatState agent.conversation_history latest_user
  let st1 := chatLoop (turnContext agent) parse engine max_iterations 0 st0
  let st2 := finishTurn st1
  let agent2 :=
    commitTurn agent latest_user model_hint
      agent.conversation_history.length st2
  (agent2, st2.response_message, st2.launched_app)

/-- AutomergeAgent::chat_request (src/agent/src/lib.rs, lines 216-227):
None when the send fails, otherwise the received oneshot value flattened;
send_ok models whether the mpsc send succeeded and received models the
Result-converted oneshot receive (none when the channel closed). -/
def chatRequestResult (send_ok : Bool) (received : Option (Option String)) :
    Option String :=
  if send_ok = false then none
  else
    match received with
    | some v => v
    | none => none

/-- Whether the first character list starts the second one. -/
def leadsWith : List Char → List Char → Bool
  | [], _ => true
  | _ :: _, [] => false
  | c :: cs, d :: ds => c == d && leadsWith cs ds

/-- Whether the first character list occurs inside the second one. -/
def occursIn (needle : List Char) : List Char → Bool
  | [] => leadsWith needle []
  | d :: ds => leadsWith needle (d :: ds) || occursIn needle ds

/-- Substring test used to state that an error answer names the repeat. -/
def strContains (h n : String) : Bool := occursIn n.data h.data

/- Association-list map lemmas. -/

theorem smapGet_insert_self {α : Type} (m : List (String × α)) (k : String)
    (v : α) : smapGet (smapInsert m k v) k = some v := by
  induction m with
  | nil => simp [smapInsert, smapGet]
  | cons hd tl ih =>
      obtain ⟨k2, v2⟩ := hd
      by_cases h : k2 = k
      · simp [smapInsert, smapGet, h]
      · simp [smapInsert, smapGet, h, ih]

theorem smapGet_insert_ne {α : Type} (m : List (String × α)) (k2 k : String)
    (v : α) (h : k2 ≠ k) : smapGet (smapInsert m k2 v) k = smapGet m k := by
  induction m with
  | nil => simp [smapInsert, smapGet, h]
  | cons hd tl ih =>
      obtain ⟨k3, v3⟩ := hd
      by_cases h3 : k3 = k2
      · subst h3
        simp [smapInsert, smapGet, h]
      · simp [smapInsert, smapGet, h3, ih]

theorem smapGet_remove_ne {α : Type} (m : List (String × α)) (k2 k : String)
    (h : k2 ≠ k) : smapGet (smapRemove m k2) k = smapGet m k := by
  induction m with
  | nil => simp [smapRemove, smapGet]
  | cons hd tl ih =>
      obtain ⟨k3, v3⟩ := hd
      by_cases h3 : k3 = k2
      · subst h3
        simp [smapRemove, smapGet, h]
      · simp [smapRemove, smapGet, h3, ih]

/-- Claim C3: DocWebSink::launch_app performs the webviews insertion and the
WebApp response push inside one and the same transaction.  In the embedding
the transaction is the single state transition launchApp, so the only
committed states are its argument and its result; the result contains both
the webviews entry for the id and the pushed WebApp response, hence no
committed state holds one without the other. -/
theorem c3_launch_app_atomic (agent : LspAgent) (id content : String) :
    smapGet (launchApp agent id content).webviews.documents id =
      some ⟨content⟩ ∧
    (launchApp agent id content).responses =
      agent.responses ++ [AgentResponse.webApp id content] ∧
    AgentResponse.webApp id content ∈ (launchApp agent id content).responses := by
  refine ⟨?_, rfl, ?_⟩
  · simp [launchApp, smapGet_insert_self]
  · simp [launchApp]

/-- Workspace and web operations on the shared document, used to state that
later operations not touching a uri keep its text_documents entry. -/
inductive AgentOp where
  | opDidOpen (uri text : String)
  | opDidChange (uri text : String)
  | opDidClose (uri : String)
  | opSetActiveDocument (uri : String)
  | opLaunchApp (id content : String)
  | opCloseApp (app_id : String)
  | opStoreValue (key value description : String)
  | opAppInferenceRequest (content app_id : String)
deriving DecidableEq, Repr

/-- Interpretation of AgentOp by the embedded document operations. -/
def applyOp (agent : LspAgent) : AgentOp → LspAgent
  | .opDidOpen uri text => didOpen agent uri text
  | .opDidChange uri text => didChange agent uri text
  | .opDidClose uri => didClose agent uri
  | .opSetActiveDocument uri => setActiveDocument agent uri
  | .opLaunchApp id content => launchApp agent id content
  | .opCloseApp app_id => closeApp agent app_id
  | .opStoreValue key value description => storeValue agent key value description
  | .opAppInferenceRequest content app_id =>
      appInferenceRequest agent content app_id

/-- Apply a sequence of operations in order. -/
def applyOps (agent : LspAgent) : List AgentOp → LspAgent
  | [] => agent
  | op :: ops => applyOps (applyOp agent op) ops

/-- Whether an operation mutates the text_documents entry of the given uri:
only did_open, did_change and did_close on that uri do. -/
def touchesTextDocument (uri : String) : AgentOp → Bool
  | .opDidOpen u _ => u == uri
  | .opDidChange u _ => u == uri
  | .opDidClose u => u == uri
  | _ => false

theorem applyOp_preserves_text_document (agent : LspAgent) (uri : String)
    (op : AgentOp) (h : touchesTextDocument uri op = false) :
    smapGet (applyOp agent op).text_documents.documents uri =
      smapGet agent.text_documents.documents uri := by
  cases op with
  | opDidOpen u t =>
      simp [touchesTextDocument] at h
      simp [applyOp, didOpen, smapGet_insert_ne _ _ _ _ h]
  | opDidChange u t =>
      simp [touchesTextDocument] at h
      simp [applyOp, didChange, smapGet_insert_ne _ _ _ _ h]
  | opDidClose u =>
      simp [touchesTextDocument] at h
      simp [applyOp, didClose, smapGet_remove_ne _ _ _ h]
  | opSetActiveDocument u => simp [applyOp, setActiveDocument]
  | opLaunchApp id content => simp [applyOp, launchApp]
  | opCloseApp app_id => simp [applyOp, closeApp]
  | opStoreValue k v d => simp [applyOp, storeValue]
  | opAppInferenceRequest c a => simp [applyOp, appInferenceRequest]

/-- Claim C8: read_document(uri) after did_open(uri, text), with no later
operation mutating the text_documents entry of that uri, returns text; and
read_document of an app id created by launch_app misses when the id is not a
text_documents key, returning the empty string, because webviews and
text_documents are distinct maps. -/
theorem c8_read_document_maps :
    (∀ (agent : LspAgent) (uri text : String) (ops : List AgentOp),
        (∀ op ∈ ops, touchesTextDocument uri op = false) →
        readDocument (applyOps (didOpen agent uri text) ops) uri = text) ∧
    (∀ (agent : LspAgent) (id content : String),
        smapGet agent.text_documents.documents id = none →
        readDocument (launchApp agent id content) id = "") := by
  constructor
  · intro agent uri text ops hops
    have key : ∀ (l : List AgentOp) (s : LspAgent),
        (∀ op ∈ l, touchesTextDocument uri op = false) →
        smapGet (applyOps s l).text_documents.documents uri =
          smapGet s.text_documents.documents uri := by
      intro l
      induction l with
      | nil => intro s _; rfl
      | cons op rest ih =>
          intro s h
          have h1 := h op (List.mem_cons_self op rest)
          have h2 : ∀ o ∈ rest, touchesTextDocument uri o = false :=
            fun o ho => h o (List.mem_cons_of_mem op ho)
          calc smapGet (applyOps (applyOp s op) rest).text_documents.documents uri
              = smapGet (applyOp s op).text_documents.documents uri :=
                ih (applyOp s op) h2
            _ = smapGet s.text_documents.documents uri :=
                applyOp_preserves_text_document s uri op h1
    rw [readDocument, key ops (didOpen agent uri text) hops]
    simp [didOpen, smapGet_insert_self]
  · intro agent id content h
    simp [readDocument, launchApp, h]

/-- Concrete document used by the C8 witness. -/
def c8Agent : LspAgent := LspAgent.default

/-- Claim C8 witness: a did_open entry survives a later app launch and is
read back, while the launched app id misses text_documents. -/
theorem c8_read_document_maps_witness :
    readDocument
        (applyOps (didOpen c8Agent "file.rs" "code")
          [AgentOp.opLaunchApp "app-1" "html"]) "file.rs" = "code" ∧
    readDocument (launchApp c8Agent "app-1" "html") "app-1" = "" :=
  ⟨c8_read_document_maps.1 c8Agent "file.rs" "code"
      [AgentOp.opLaunchApp "app-1" "html"] (by decide),
   c8_read_document_maps.2 c8Agent "app-1" "html" rfl⟩

/-- Claim C10: take_response and check_agent_state commit only when they pop
a queue head; on an empty queue the document is returned unchanged, and on a
pop every field other than the popped queue is written back equal to its
prior value. -/
theorem c10_pop_frame :
    (∀ agent : LspAgent, agent.responses = [] →
        takeResponse agent = (none, agent)) ∧
    (∀ (agent : LspAgent) (r : AgentResponse) (rest : List AgentResponse),
        agent.responses = r :: rest →
        takeResponse agent = (some r, { agent with responses := rest }) ∧
        (takeResponse agent).2.requests = agent.requests ∧
        (takeResponse agent).2.text_documents = agent.text_documents ∧
        (takeResponse agent).2.webviews = agent.webviews ∧
        (takeResponse agent).2.should_exit = agent.should_exit ∧
        (takeResponse agent).2.active_model = agent.active_model ∧
        (takeResponse agent).2.conversation_history =
          agent.conversation_history ∧
        (takeResponse agent).2.stored_values = agent.stored_values) ∧
    (∀ agent : LspAgent, agent.requests = [] →
        checkAgentState agent =
          ((agent.should_exit, none, agent.active_model), agent)) ∧
    (∀ (agent : LspAgent) (r : AgentRequest) (rest : List AgentRequest),
        agent.requests = r :: rest →
        checkAgentState agent =
          ((agent.should_exit, some r, agent.active_model),
           { agent with requests := rest }) ∧
        (checkAgentState agent).2.responses = agent.responses ∧
        (checkAgentState agent).2.text_documents = agent.text_documents ∧
        (checkAgentState agent).2.webviews = agent.webviews ∧
        (checkAgentState agent).2.should_exit = agent.should_exit ∧
        (checkAgentState agent).2.active_model = agent.active_model ∧
        (checkAgentState agent).2.conversation_history =
          agent.conversation_history ∧
        (checkAgentState agent).2.stored_values = agent.stored_values) := by
  refine ⟨?_, ?_, ?_, ?_⟩
  · intro agent h
    simp [takeResponse, h]
  · intro agent r rest h
    simp [takeResponse, h]
  · intro agent h
    simp [checkAgentState, h]
  · intro agent r rest h
    simp [checkAgentState, h]

/-- Concrete document used by the C10 witness. -/
def c10Agent : LspAgent :=
  { LspAgent.default with
      responses := [AgentResponse.chat "x"],
      requests := [AgentRequest.inference "compute" "app-1"],
      should_exit := false,
      conversation_history := [ConversationFragment.user "hi"] }

/-- Claim C10 witness: popping each one-element queue leaves the remaining
fields of the concrete document intact, and empty queues change nothing. -/
theorem c10_pop_frame_witness :
    takeResponse c10Agent =
      (some (AgentResponse.chat "x"), { c10Agent with responses := [] }) ∧
    (checkAgentState c10Agent).2.conversation_history =
      c10Agent.conversation_history ∧
    takeResponse LspAgent.default = (none, LspAgent.default) :=
  ⟨(c10_pop_frame.2.1 c10Agent (AgentResponse.chat "x") [] rfl).1,
   (c10_pop_frame.2.2.2 c10Agent (AgentRequest.inference "compute" "app-1")
      [] rfl).2.2.2.2.2.2.1,
   c10_pop_frame.1 LspAgent.default rfl⟩

/-- Claim C9: chat_request resolves to Some final message when the
orchestrator produced one and the oneshot delivered it, resolves to None
when the channel closed (failed send or closed receiver), and its embedding
is a total function into Option String, so no error is ever raised to the
caller. -/
theorem c9_chat_request_channel :
    (∀ (agent : LspAgent) (u : String) (mh : Option String) (n : Nat)
        (parse : String → Option ToolResponse) (engine : Nat → String)
        (m : String),
        (handleChatRequest agent u mh n parse engine).2.1 = some m →
        chatRequestResult true
          (some (handleChatRequest agent u mh n parse engine).2.1) = some m) ∧
    (∀ send_ok : Bool, chatRequestResult send_ok none = none) ∧
    (∀ received : Option (Option String),
        chatRequestResult false received = none) ∧
    (∀ (send_ok : Bool) (received : Option (Option String)),
        chatRequestResult send_ok received = none ∨
        ∃ m, chatRequestResult send_ok received = some m) := by
  refine ⟨?_, ?_, ?_, ?_⟩
  · intro agent u mh n parse engine m h
    rw [h]
    rfl
  · intro send_ok
    cases send_ok <;> rfl
  · intro received
    rfl
  · intro send_ok received
    cases h : chatRequestResult send_ok received with
    | none => exact Or.inl rfl
    | some m => exact Or.inr ⟨m, rfl⟩

/-- Parse oracle for the C9 witness: every reply fails JSON parsing. -/
def c9Parse : String → Option ToolResponse := fun _ => none

/-- Engine oracle for the C9 witness: a fixed plain-text reply. -/
def c9Engine : Nat → String := fun _ => "plain text"

/-- Claim C9 witness: a concrete turn whose raw-text answer is delivered
over the oneshot channel reaches the caller as Some. -/
theorem c9_chat_request_channel_witness :
    chatRequestResult true
      (some (handleChatRequest LspAgent.default "hi" none 3
        c9Parse c9Engine).2.1) = some "plain text" :=
  c9_chat_request_channel.1 LspAgent.default "hi" none 3 c9Parse c9Engine
    "plain text" (by decide)

/-- One unfolding of the loop at a reply that fails to parse: the raw text
becomes a terminal answer and the loop breaks with it. -/
theorem chatLoop_parse_none (ctx : TurnContext)
    (parse : String → Option ToolResponse) (engine : Nat → String)
    (fuel i : Nat) (st : ChatLoopState) (h : parse (engine i) = none) :
    chatLoop ctx parse engine (fuel + 1) i st =
      { st with response_message := some (engine i) } := by
  simp [chatLoop, h, parseToolResponse, chatStep]

/-- Claim C6: an engine reply that does not parse as JSON of shape
(action, optional message, optional app) terminates the turn at that
iteration — the loop breaks there with the raw reply as the answer — and
when it is the first reply the final answer of the whole turn is exactly
that raw string. -/
theorem c6_parse_failure_terminal :
    (∀ (ctx : TurnContext) (parse : String → Option ToolResponse)
        (engine : Nat → String) (fuel i : Nat) (st : ChatLoopState),
        parse (engine i) = none →
        chatLoop ctx parse engine (fuel + 1) i st =
          { st with response_message := some (engine i) }) ∧
    (∀ (agent : LspAgent) (u : String) (mh : Option String) (n : Nat)
        (parse : String → Option ToolResponse) (engine : Nat → String),
        parse (engine 0) = none → 0 < n →
        (handleChatRequest agent u mh n parse engine).2.1 = some (engine 0)) := by
  constructor
  · exact chatLoop_parse_none
  · intro agent u mh n parse engine h hn
    obtain ⟨k, rfl⟩ := Nat.exists_eq_succ_of_ne_zero (Nat.pos_iff_ne_zero.mp hn)
    have hl := chatLoop_parse_none (turnContext agent) parse engine k 0
      (initialChatState agent.conversation_history u) h
    simp only [handleChatRequest, hl]
    simp [finishTurn, initialChatState]

/-- Parse oracle for the C6 witness: nothing parses. -/
def c6Parse : String → Option ToolResponse := fun _ => none

/-- Engine oracle for the C6 witness: fixed non-JSON text. -/
def c6Engine : Nat → String := fun _ => "not json"

/-- Claim C6 witness: a concrete turn whose first reply fails parsing ends
with exactly that raw text as answer. -/
theorem c6_parse_failure_terminal_witness :
    (handleChatRequest LspAgent.default "hi" none 3 c6Parse c6Engine).2.1 =
      some "not json" :=
  c6_parse_failure_terminal.2 LspAgent.default "hi" none 3 c6Parse c6Engine
    rfl (by decide)

/-- Claim C4: when the engine requests a context block that was already
supplied this turn (its payload is already Some), the loop breaks at that
iteration with the corresponding repeat-error answer, whatever budget
remains, and each of the three repeat-error answers contains the text
"already provided". -/
theorem c4_repeat_context_error :
    (∀ (ctx : TurnContext) (parse : String → Option ToolResponse)
        (engine : Nat → String) (fuel i : Nat) (st : ChatLoopState),
        ((parseToolResponse (parse (engine i)) (engine i)).action =
            "list_apps" →
          st.apps_payload.isSome = true →
          chatLoop ctx parse engine (fuel + 1) i st =
            { st with response_message := some appsRepeatMessage }) ∧
        ((parseToolResponse (parse (engine i)) (engine i)).action =
            "list_docs" →
          st.docs_payload.isSome = true →
          chatLoop ctx parse engine (fuel + 1) i st =
            { st with response_message := some docsRepeatMessage }) ∧
        ((parseToolResponse (parse (engine i)) (engine i)).action =
            "list_app_values" →
          st.stored_values_payload.isSome = true →
          chatLoop ctx parse engine (fuel + 1) i st =
            { st with response_message := some storedValuesRepeatMessage })) ∧
    (strContains appsRepeatMessage "already provided" = true ∧
     strContains docsRepeatMessage "already provided" = true ∧
     strContains storedValuesRepeatMessage "already provided" = true) := by
  constructor
  · intro ctx parse engine fuel i st
    refine ⟨?_, ?_, ?_⟩
    · intro hact hsome
      obtain ⟨v, hv⟩ := Option.isSome_iff_exists.mp hsome
      simp [chatLoop, chatStep, hact, hv]
    · intro hact hsome
      obtain ⟨v, hv⟩ := Option.isSome_iff_exists.mp hsome
      simp [chatLoop, chatStep, hact, hv]
    · intro hact hsome
      obtain ⟨v, hv⟩ := Option.isSome_iff_exists.mp hsome
      simp [chatLoop, chatStep, hact, hv]
  · refine ⟨?_, ?_, ?_⟩ <;> decide

/-- Turn context for the C4 witness. -/
def c4Ctx : TurnContext := ⟨[], ⟨[], none⟩, []⟩

/-- Parse oracle for the C4 witness: every reply asks for the app list. -/
def c4Parse : String → Option ToolResponse :=
  fun _ => some ⟨"list_apps", none, none⟩

/-- Engine oracle for the C4 witness. -/
def c4Engine : Nat → String := fun _ => "req-apps"

/-- Loop state for the C4 witness: the apps block was already supplied. -/
def c4St : ChatLoopState :=
  { initialChatState [] "hello" with apps_payload := some [] }

/-- Claim C4 witness: a second list_apps request after the block was
supplied ends the loop at once with the repeat-error answer. -/
theorem c4_repeat_context_error_witness :
    chatLoop c4Ctx c4Parse c4Engine 3 0 c4St =
      { c4St with response_message := some appsRepeatMessage } :=
  (c4_repeat_context_error.1 c4Ctx c4Parse c4Engine 2 0 c4St).1
    (by decide) (by decide)

/-- Parse oracle for the C7 witness and scenario: every reply is a
list_apps request. -/
def c7Parse : String → Option ToolResponse :=
  fun _ => some ⟨"list_apps", none, none⟩

/-- Engine oracle for the C7 witness and scenario. -/
def c7Engine : Nat → String := fun _ => "req-apps"

/-- Claim C7: a turn whose loop ends with no terminal outcome — no answer
pending, no nothing, no launched app — gets the fixed fallback answer; in
particular, with the iteration budget overridden to 1 and an engine that
always replies list_apps, the turn ends with the fallback message. -/
theorem c7_budget_exhausted_fallback :
    (∀ (agent : LspAgent) (u : String) (mh : Option String) (n : Nat)
        (parse : String → Option ToolResponse) (engine : Nat → String),
        (chatLoop (turnContext agent) parse engine n 0
            (initialChatState agent.conversation_history u)).response_message
          = none →
        (chatLoop (turnContext agent) parse engine n 0
            (initialChatState agent.conversation_history u)).did_nothing
          = false →
        (chatLoop (turnContext agent) parse engine n 0
            (initialChatState agent.conversation_history u)).launched_app
          = none →
        (handleChatRequest agent u mh n parse engine).2.1 =
          some fallbackMessage) ∧
    (∀ (agent : LspAgent) (u : String) (mh : Option String),
        (handleChatRequest agent u mh 1 c7Parse c7Engine).2.1 =
          some fallbackMessage) := by
  constructor
  · intro agent u mh n parse engine h1 h2 h3
    simp [handleChatRequest, finishTurn, h1, h2, h3]
  · intro agent u mh
    simp [handleChatRequest, chatLoop, chatStep, c7Parse, c7Engine,
      parseToolResponse, pushContextHistory, initialChatState, finishTurn]
    split <;> simp

/-- Claim C7 witness: the concrete budget-1, always-list_apps turn ends with
the fixed fallback message. -/
theorem c7_budget_exhausted_fallback_witness :
    (handleChatRequest LspAgent.default "hello" none 1 c7Parse c7Engine).2.1 =
      some fallbackMessage :=
  c7_budget_exhausted_fallback.1 LspAgent.default "hello" none 1 c7Parse
    c7Engine (by decide) (by decide) (by decide)

/-- Claim C5: a turn with non-empty user text whose first engine reply has
action answer (with final message m; parse_tool_response guarantees an
answer action always carries a message) appends exactly two fragments to
ConversationHistory — the User fragment with the user text followed by the
Assistant fragment with the final message — and no context markers, and the
turn resolves to that message. -/
theorem c5_immediate_answer (agent : LspAgent) (u : String)
    (mh : Option String) (n : Nat) (parse : String → Option ToolResponse)
    (engine : Nat → String) (m : String) (hne : u ≠ "") (hn : 0 < n)
    (hans : (parseToolResponse (parse (engine 0)) (engine 0)).action =
      "answer")
    (hm : (parseToolResponse (parse (engine 0)) (engine 0)).message = some m) :
    (handleChatRequest agent u mh n parse engine).1.conversation_history =
      agent.conversation_history ++
        [ConversationFragment.user u, ConversationFragment.assistant m] ∧
    (handleChatRequest agent u mh n parse engine).2.1 = some m := by
  obtain ⟨k, rfl⟩ := Nat.exists_eq_succ_of_ne_zero (Nat.pos_iff_ne_zero.mp hn)
  have hl : chatLoop (turnContext agent) parse engine (k + 1) 0
      (initialChatState agent.conversation_history u) =
      { initialChatState agent.conversation_history u with
          response_message := some m } := by
    simp [chatLoop, chatStep, hans, hm]
  simp only [handleChatRequest, hl]
  constructor
  · cases mh <;>
      simp [finishTurn, commitTurn, initialChatState, hne, List.drop_length]
  · simp [finishTurn, initialChatState]

/-- Parse oracle for the C5 witness: every reply is an immediate answer. -/
def c5Parse : String → Option ToolResponse :=
  fun _ => some ⟨"answer", some "done", none⟩

/-- Engine oracle for the C5 witness. -/
def c5Engine : Nat → String := fun _ => "raw"

/-- Claim C5 witness: a concrete immediately-answered turn appends exactly
the user fragment and the assistant fragment. -/
theorem c5_immediate_answer_witness :
    (handleChatRequest LspAgent.default "hello" none 3 c5Parse
        c5Engine).1.conversation_history =
      LspAgent.default.conversation_history ++
        [ConversationFragment.user "hello",
         ConversationFragment.assistant "done"] ∧
    (handleChatRequest LspAgent.default "hello" none 3 c5Parse
        c5Engine).2.1 = some "done" :=
  c5_immediate_answer LspAgent.default "hello" none 3 c5Parse c5Engine
    "done" (by decide) (by decide) (by decide) (by decide)

/-- Claim C1 (amended): an engine reply whose parsed action is none of
answer, nothing, launch_app, list_apps, list_docs, list_app_values does NOT
terminate the turn at that iteration; it records the raw reply text as the
pending answer and the loop proceeds to the next iteration, so the raw text
is the final answer only when no later iteration overrides it (in
particular when the budget is then exhausted). -/
theorem c1_unknown_action_continues (ctx : TurnContext)
    (parse : String → Option ToolResponse) (engine : Nat → String)
    (fuel i : Nat) (st : ChatLoopState)
    (h : (parseToolResponse (parse (engine i)) (engine i)).action ∉
      (["answer", "nothing", "launch_app", "list_apps", "list_docs",
        "list_app_values"] : List String)) :
    chatLoop ctx parse engine (fuel + 1) i st =
      chatLoop ctx parse engine fuel (i + 1)
        { st with response_message := some (engine i) } := by
  simp only [List.mem_cons, List.not_mem_nil, or_false, not_or] at h
  obtain ⟨h1, h2, h3, h4, h5, h6⟩ := h
  simp [chatLoop, chatStep, h1, h2, h3, h4, h5, h6]

/-- Parse oracle for the C1 counterexample and witness: the first reply
parses to an unrecognized action, the second to a terminal answer. -/
def c1Parse : String → Option ToolResponse := fun s =>
  if s = "reply-zero" then some ⟨"frobnicate", none, none⟩
  else some ⟨"answer", some "final answer", none⟩

/-- Engine oracle for the C1 counterexample and witness. -/
def c1Engine : Nat → String := fun i => if i = 0 then "reply-zero" else "reply-one"

/-- Turn context for the C1 witness. -/
def c1Ctx : TurnContext := ⟨[], ⟨[], none⟩, []⟩

/-- Loop state for the C1 witness. -/
def c1St : ChatLoopState := initialChatState [] "hello"

/-- Claim C1 (counterexample): with the default budget of three iterations,
the first reply parses to the unrecognized action frobnicate, yet the
turn does not end there: the second reply (action answer) overrides it and
the final answer is "final answer", not the raw text of the unrecognized
reply, contradicting the claim that such a reply terminates the turn at
that iteration with the raw text as final answer. -/
theorem c1_counterexample :
    (parseToolResponse (c1Parse (c1Engine 0)) (c1Engine 0)).action ∉
      (["answer", "nothing", "launch_app", "list_apps", "list_docs",
        "list_app_values"] : List String) ∧
    (handleChatRequest LspAgent.default "hello" none
        defaultToolMaxIterations c1Parse c1Engine).2.1 =
      some "final answer" ∧
    c1Engine 0 ≠ "final answer" :=
  ⟨by decide, by decide, by decide⟩

/-- Claim C1 witness: the amended statement applied at the concrete
unrecognized-action reply. -/
theorem c1_unknown_action_continues_witness :
    chatLoop c1Ctx c1Parse c1Engine 1 0 c1St =
      chatLoop c1Ctx c1Parse c1Engine 0 1
        { c1St with response_message := some (c1Engine 0) } :=
  c1_unknown_action_continues c1Ctx c1Parse c1Engine 0 0 c1St (by decide)

/-- Document state for the C2 counterexample: should_exit was set while a
mini-app request was still queued. -/
def c2State : LspAgent :=
  { LspAgent.default with
      should_exit := true,
      requests := [AgentRequest.inference "compute" "app-1"] }

/-- Claim C2 (counterexample): on the notification that observes
should_exit, check_agent_state still removes the queued request head inside
the very transaction that observes the flag (the control loop then breaks
and drops it unhandled), so an element IS removed from RequestQueue at the
observation of should_exit, contradicting the claim that none is removed at
or after it. -/
theorem c2_counterexample :
    (checkAgentState c2State).1.1 = true ∧
    c2State.requests = [AgentRequest.inference "compute" "app-1"] ∧
    (checkAgentState c2State).2.requests = [] ∧
    controlRun [fun s => s] c2State =
      ([AgentRequest.inference "compute" "app-1"],
       { c2State with requests := [] }, true) :=
  ⟨rfl, rfl, rfl, by decide⟩

/-- Claim C2 (amended): setting should_exit stops both watch loops on their
next notification — the rendering router tears down without popping a
response and with the document unchanged, and the control loop shuts down
at the observing notification, its whole remaining run dequeuing only the
request head (if any) removed inside that observing transaction, with no
removal afterward regardless of the notifications that would have
followed. -/
theorem c2_exit_stops_loops :
    (∀ t : LspAgent, t.should_exit = true →
        handleWebDocChange t = (true, t, none)) ∧
    (∀ (e : LspAgent → LspAgent) (rest : List (LspAgent → LspAgent))
        (s : LspAgent), (e s).should_exit = true →
        controlRun (e :: rest) s =
          ((checkAgentState (e s)).1.2.1.toList, (checkAgentState (e s)).2,
           true)) := by
  constructor
  · intro t h
    simp [handleWebDocChange, h]
  · intro e rest s h
    have hfst : (checkAgentState (e s)).1.1 = true := by
      rcases hr : (e s).requests with _ | ⟨r, rest2⟩ <;>
        simp [checkAgentState, hr, h]
    simp [controlRun, hfst]

/-- Document state for the C2 witness of the router half. -/
def c2WebState : LspAgent :=
  { LspAgent.default with
      should_exit := true,
      responses := [AgentResponse.webApp "a" "b"] }

/-- Claim C2 witness: the amended statement applied to a concrete router
state with should_exit set and to a concrete control run whose notification
sets should_exit. -/
theorem c2_exit_stops_loops_witness :
    handleWebDocChange c2WebState = (true, c2WebState, none) ∧
    controlRun [setShouldExit] LspAgent.default =
      ((checkAgentState (setShouldExit LspAgent.default)).1.2.1.toList,
       (checkAgentState (setShouldExit LspAgent.default)).2, true) :=
  ⟨c2_exit_stops_loops.1 c2WebState rfl,
   c2_exit_stops_loops.2 setShouldExit [] LspAgent.default rfl⟩
